import Mathlib

/-
Shallow embedding of src/config_to_json.py (classes Lexer and Parser plus the
convert_to_json entry point) for checking the repository specification.

Modelling conventions:
- Python strings are Lean String / List Char; machine integers do not occur
  (Python ints are unbounded), so stack values use Lean Int.
- Python exceptions become an explicit error type PyError.  SyntaxError raised
  by Lexer.error / Parser.error (which always embeds line and column) becomes
  PyError.synError line col msg; ValueError escaping from int(...) becomes
  PyError.valError msg; TypeError escaping from untyped operations (abs on a
  string, + on str and int, the expression x in s with x = None) becomes
  PyError.typError msg.
- The parser is fueled: every loop or recursive call consumes one unit of
  fuel, and running out gives PyError.outOfFuel.  This models nothing in the
  Python code; concrete runs are given ample fuel (fuelFor) and universal
  statements quantify over the fuel.
- Character predicates (isspace, isdigit, isalpha/islower, isalnum) are
  modelled with their ASCII meaning; the repository inputs are ASCII.
- The three token-skipping loops of Lexer.get_next_token (skip_whitespace,
  skip_single_comment, skip_multi_comment) are fused into a single
  structurally recursive function skipIgnorableGo with a mode tag, one mode
  per Python loop, so that it reduces definitionally.
-/

namespace ConfigToJson

/-- Token kinds, mirroring the Python enum TokenType. -/
inductive TokenType where
  | COMMENT_SINGLE
  | COMMENT_MULTI_START
  | COMMENT_MULTI_END
  | DEFINE
  | CONST_EXPR_START
  | CONST_EXPR_END
  | ARRAY_START
  | ARRAY_END
  | STRING
  | NUMBER
  | HEX_NUMBER
  | NAME
  | OPERATOR
  | FUNCTION
  | COMMA
  | EOF
deriving DecidableEq, Repr

/-- Python str(TokenType.X) as used in f-strings of error messages. -/
def TokenType.pyRepr : TokenType → String
  | .COMMENT_SINGLE => "TokenType.COMMENT_SINGLE"
  | .COMMENT_MULTI_START => "TokenType.COMMENT_MULTI_START"
  | .COMMENT_MULTI_END => "TokenType.COMMENT_MULTI_END"
  | .DEFINE => "TokenType.DEFINE"
  | .CONST_EXPR_START => "TokenType.CONST_EXPR_START"
  | .CONST_EXPR_END => "TokenType.CONST_EXPR_END"
  | .ARRAY_START => "TokenType.ARRAY_START"
  | .ARRAY_END => "TokenType.ARRAY_END"
  | .STRING => "TokenType.STRING"
  | .NUMBER => "TokenType.NUMBER"
  | .HEX_NUMBER => "TokenType.HEX_NUMBER"
  | .NAME => "TokenType.NAME"
  | .OPERATOR => "TokenType.OPERATOR"
  | .FUNCTION => "TokenType.FUNCTION"
  | .COMMA => "TokenType.COMMA"
  | .EOF => "TokenType.EOF"

/-- A token: kind, raw lexeme, and the line/column where it starts. -/
structure Token where
  type : TokenType
  value : String
  line : Nat
  col : Nat
deriving DecidableEq, Repr

/-- Errors of the embedded program; see the header comment. -/
inductive PyError where
  | synError (line col : Nat) (msg : String)
  | valError (msg : String)
  | typError (msg : String)
  | outOfFuel
deriving DecidableEq, Repr

/-- A parse-time value: Python int, str or list as produced by the parser. -/
inductive Value where
  | int (n : Int)
  | str (s : String)
  | list (vs : List Value)
deriving Repr

/-- The output mapping, with Python dict semantics (insertion order kept). -/
abbrev Config := List (String × Value)

/-- Lexer state: the text from self.pos onward plus self.line and self.col.
The Python current_char is the head of rest (None when rest is empty). -/
structure LexState where
  rest : List Char
  line : Nat
  col : Nat
deriving DecidableEq, Repr

/-- Python str.isspace for ASCII characters. -/
def pyIsSpace (c : Char) : Bool :=
  c = ' ' || c = '\t' || c = '\n' || c = '\r' || c = '\x0b' || c = '\x0c'

/-- Characters accepted by Lexer.read_name: isalnum() or underscore (ASCII). -/
def pyIsNameChar (c : Char) : Bool :=
  c.isAlphanum || c = '_'

/-- Hex digits accepted by the explicit range checks in Lexer.read_number. -/
def pyIsHexDigit (c : Char) : Bool :=
  ('0' ≤ c && c ≤ '9') || ('a' ≤ c && c ≤ 'f') || ('A' ≤ c && c ≤ 'F')

/-- The three skipping loops of the lexer, as one mode tag per Python loop:
norm is the top of Lexer.get_next_token, single is skip_single_comment,
multi is skip_multi_comment. -/
inductive SkipMode where
  | norm
  | single
  | multi
deriving DecidableEq, Repr

/-- Fused whitespace/comment skipping of Lexer.get_next_token.  Position
bookkeeping follows Lexer.advance: a newline bumps line and resets col. -/
def skipIgnorableGo : List Char → Nat → Nat → SkipMode → Except PyError LexState
  | [], l, c, .multi => .error (.synError l c "Unclosed multi-line comment")
  | [], l, c, _ => .ok ⟨[], l, c⟩
  | '#' :: '>' :: rest, l, c, .multi => skipIgnorableGo rest l (c + 2) .norm
  | '\n' :: rest, l, _, .multi => skipIgnorableGo rest (l + 1) 1 .multi
  | _ :: rest, l, c, .multi => skipIgnorableGo rest l (c + 1) .multi
  | '\n' :: rest, l, _, .single => skipIgnorableGo rest (l + 1) 1 .norm
  | _ :: rest, l, c, .single => skipIgnorableGo rest l (c + 1) .single
  | '<' :: '#' :: rest, l, c, .norm => skipIgnorableGo rest l (c + 2) .multi
  | '%' :: rest, l, c, .norm => skipIgnorableGo rest l (c + 1) .single
  | '\n' :: rest, l, _, .norm => skipIgnorableGo rest (l + 1) 1 .norm
  | ch :: rest, l, c, .norm =>
    if pyIsSpace ch then skipIgnorableGo rest l (c + 1) .norm
    else .ok ⟨ch :: rest, l, c⟩

/-- Loop of Lexer.read_string, entered after the opening at-quote is consumed.
A doubled quote is an escaped quote; end of input is a fatal error. -/
def readStringGo : List Char → Nat → Nat → String → Except PyError (String × LexState)
  | [], l, c, _ => .error (.synError l c "Unclosed string")
  | '\x22' :: '\x22' :: rest, l, c, acc => readStringGo rest l (c + 2) (acc.push '\x22')
  | '\x22' :: rest, l, c, acc => .ok (acc, ⟨rest, l, c + 1⟩)
  | '\n' :: rest, l, _, acc => readStringGo rest (l + 1) 1 (acc.push '\n')
  | ch :: rest, l, c, acc => readStringGo rest l (c + 1) (acc.push ch)

/-- Lexer.read_name: consume a run of alphanumerics/underscores. -/
def readNameGo : List Char → Nat → Nat → String → String × LexState
  | [], l, c, acc => (acc, ⟨[], l, c⟩)
  | ch :: rest, l, c, acc =>
    if pyIsNameChar ch then readNameGo rest l (c + 1) (acc.push ch)
    else (acc, ⟨ch :: rest, l, c⟩)

/-- Decimal-digit run of Lexer.read_number. -/
def readDecGo : List Char → Nat → Nat → String → String × LexState
  | [], l, c, acc => (acc, ⟨[], l, c⟩)
  | ch :: rest, l, c, acc =>
    if ch.isDigit then readDecGo rest l (c + 1) (acc.push ch)
    else (acc, ⟨ch :: rest, l, c⟩)

/-- Hex-digit run of Lexer.read_number after a 0x/0X introducer. -/
def readHexGo : List Char → Nat → Nat → String → String × LexState
  | [], l, c, acc => (acc, ⟨[], l, c⟩)
  | ch :: rest, l, c, acc =>
    if pyIsHexDigit ch then readHexGo rest l (c + 1) (acc.push ch)
    else (acc, ⟨ch :: rest, l, c⟩)

/-- Python number.startswith("0x") or number.startswith("0X"), used by
Lexer.get_next_token to classify the lexeme read_number returned. -/
def hexIntroducer (s : String) : Bool :=
  match s.toList with
  | '0' :: 'x' :: _ => true
  | '0' :: 'X' :: _ => true
  | _ => false

/-- Lexer.read_number.  When the current character is a lone 0 at end of
input, the Python expression self.peek() in 'xX' evaluates None in a string
and raises a TypeError; that unguarded path is modelled faithfully. -/
def readNumber (st : LexState) : Except PyError (String × LexState) :=
  match st.rest with
  | '0' :: [] =>
    .error (.typError "\x27in <string>\x27 requires string as left operand, not NoneType")
  | '0' :: x :: rest =>
    if x = 'x' || x = 'X' then
      let r := readHexGo rest st.line (st.col + 2) (("".push '0').push x)
      .ok r
    else
      .ok (readDecGo st.rest st.line st.col "")
  | _ => .ok (readDecGo st.rest st.line st.col "")

/-- Lexer.get_next_token: skip whitespace and comments, then dispatch on the
current character, in the priority order of the Python method. -/
def getNextToken (st0 : LexState) : Except PyError (Token × LexState) :=
  match skipIgnorableGo st0.rest st0.line st0.col .norm with
  | .error e => .error e
  | .ok st =>
    match st.rest with
    | [] => .ok (⟨.EOF, "", st.line, st.col⟩, st)
    | '.' :: '\x7b' :: rest =>
      .ok (⟨.CONST_EXPR_START, ".\x7b", st.line, st.col⟩, ⟨rest, st.line, st.col + 2⟩)
    | '\x7d' :: '.' :: rest =>
      .ok (⟨.CONST_EXPR_END, "\x7d.", st.line, st.col⟩, ⟨rest, st.line, st.col + 2⟩)
    | '@' :: '\x22' :: rest =>
      match readStringGo rest st.line (st.col + 2) "" with
      | .error e => .error e
      | .ok (s, st') => .ok (⟨.STRING, s, st.line, st.col⟩, st')
    | '(' :: rest =>
      let r := readNameGo rest st.line (st.col + 1) ""
      if r.1 = "define" then .ok (⟨.DEFINE, "define", st.line, st.col⟩, r.2)
      else .error (.synError r.2.line r.2.col ("Unexpected token after \x27(\x27: " ++ r.1))
    | '[' :: rest => .ok (⟨.ARRAY_START, "[", st.line, st.col⟩, ⟨rest, st.line, st.col + 1⟩)
    | ']' :: rest => .ok (⟨.ARRAY_END, "]", st.line, st.col⟩, ⟨rest, st.line, st.col + 1⟩)
    | ',' :: rest => .ok (⟨.COMMA, ",", st.line, st.col⟩, ⟨rest, st.line, st.col + 1⟩)
    | ch :: rest =>
      if ch.isDigit then
        match readNumber st with
        | .error e => .error e
        | .ok (num, st') =>
          if hexIntroducer num then
            .ok (⟨.HEX_NUMBER, num, st.line, st.col⟩, st')
          else
            .ok (⟨.NUMBER, num, st.line, st.col⟩, st')
      else if ch.isAlpha && ch.isLower then
        let r := readNameGo st.rest st.line st.col ""
        if r.1 = "abs" then .ok (⟨.FUNCTION, r.1, st.line, st.col⟩, r.2)
        else if r.1 = "+" || r.1 = "-" || r.1 = "*" || r.1 = "/" then
          .ok (⟨.OPERATOR, r.1, st.line, st.col⟩, r.2)
        else .ok (⟨.NAME, r.1, st.line, st.col⟩, r.2)
      else if ch = '+' || ch = '-' || ch = '*' || ch = '/' then
        .ok (⟨.OPERATOR, ("".push ch), st.line, st.col⟩, ⟨rest, st.line, st.col + 1⟩)
      else
        .error (.synError st.line st.col ("Unexpected character: " ++ ("".push ch)))

/-- The lexer over a whole input string, as built by Lexer.__init__. -/
def initLexer (s : String) : LexState := ⟨s.toList, 1, 1⟩

/-- Value of a run of decimal digits, none when a non-digit appears. -/
def digitsToNat? : List Char → Option Nat → Option Nat
  | [], acc => acc
  | ch :: rest, acc =>
    if ch.isDigit then
      digitsToNat? rest (some ((acc.getD 0) * 10 + (ch.toNat - '0'.toNat)))
    else none

/-- Python int(s) restricted to the shapes this program feeds it: an optional
sign followed by decimal digits succeeds, anything else (in particular every
lexer NAME, which begins with a letter) is none.  Surrounding whitespace and
digit-group underscores, which Python would also accept, never occur here. -/
def decToInt? (s : String) : Option Int :=
  match s.toList with
  | '-' :: rest => (digitsToNat? rest none).map (fun n => -(n : Int))
  | '+' :: rest => (digitsToNat? rest none).map (fun n => (n : Int))
  | l => (digitsToNat? l none).map (fun n => (n : Int))

/-- Value of a run of hex digits, none when empty or a non-hex-digit appears. -/
def hexDigitsToNat? : List Char → Option Nat → Option Nat
  | [], acc => acc
  | ch :: rest, acc =>
    if '0' ≤ ch ∧ ch ≤ '9' then
      hexDigitsToNat? rest (some ((acc.getD 0) * 16 + (ch.toNat - '0'.toNat)))
    else if 'a' ≤ ch ∧ ch ≤ 'f' then
      hexDigitsToNat? rest (some ((acc.getD 0) * 16 + (ch.toNat - 'a'.toNat + 10)))
    else if 'A' ≤ ch ∧ ch ≤ 'F' then
      hexDigitsToNat? rest (some ((acc.getD 0) * 16 + (ch.toNat - 'A'.toNat + 10)))
    else none

/-- Python int(s, 16) restricted to the lexemes HEX_NUMBER tokens carry:
a 0x or 0X introducer followed by hex digits; no digits after the introducer
(the lexeme 0x alone) is none, which the callers turn into a ValueError. -/
def hexToInt? (s : String) : Option Int :=
  match s.toList with
  | '0' :: 'x' :: rest => (hexDigitsToNat? rest none).map (fun n => (n : Int))
  | '0' :: 'X' :: rest => (hexDigitsToNat? rest none).map (fun n => (n : Int))
  | l => (hexDigitsToNat? l none).map (fun n => (n : Int))

/-- Python type name of a value, for TypeError message texts. -/
def Value.pyType : Value → String
  | .int _ => "int"
  | .str _ => "str"
  | .list _ => "list"

mutual
/-- Python repr of a value.  For strings the single-quoted form is used;
Python would switch quote style when the string itself contains a quote, a
cosmetic case no claim depends on. -/
def pyReprV : Value → String
  | .int n => toString n
  | .str s => "\x27" ++ s ++ "\x27"
  | .list vs => "[" ++ pyReprL vs ++ "]"

/-- Comma-separated reprs of list elements, as Python repr of a list body. -/
def pyReprL : List Value → String
  | [] => ""
  | [v] => pyReprV v
  | v :: vs => pyReprV v ++ ", " ++ pyReprL vs
end

/-- Python str(v): identity on strings, decimal form of ints, repr of lists. -/
def pyStr : Value → String
  | .int n => toString n
  | .str s => s
  | .list vs => pyReprV (.list vs)

/-- Python a + b on the value types that occur here: int addition, string
and list concatenation; any mix raises a TypeError. -/
def pyAdd : Value → Value → Except PyError Value
  | .int a, .int b => .ok (.int (a + b))
  | .str a, .str b => .ok (.str (a ++ b))
  | .list a, .list b => .ok (.list (a ++ b))
  | .str _, b => .error (.typError ("can only concatenate str (not \x22" ++ b.pyType ++ "\x22) to str"))
  | .list _, b => .error (.typError ("can only concatenate list (not \x22" ++ b.pyType ++ "\x22) to list"))
  | a, b => .error (.typError ("unsupported operand type(s) for +: \x27" ++ a.pyType ++ "\x27 and \x27" ++ b.pyType ++ "\x27"))

/-- Python a - b: only int minus int is defined. -/
def pySub : Value → Value → Except PyError Value
  | .int a, .int b => .ok (.int (a - b))
  | a, b => .error (.typError ("unsupported operand type(s) for -: \x27" ++ a.pyType ++ "\x27 and \x27" ++ b.pyType ++ "\x27"))

/-- Python sequence repetition s * n (n at most zero gives the empty string). -/
def strRepeat (s : String) (n : Int) : String :=
  ((List.replicate n.toNat s).foldl (fun a b => a ++ b) "")

/-- Python sequence repetition l * n for lists. -/
def listRepeat (l : List Value) (n : Int) : List Value :=
  ((List.replicate n.toNat l).foldl (fun a b => a ++ b) [])

/-- Python a * b: int product, or sequence repetition when one operand is a
string or list and the other an int; other mixes raise a TypeError. -/
def pyMul : Value → Value → Except PyError Value
  | .int a, .int b => .ok (.int (a * b))
  | .str s, .int n => .ok (.str (strRepeat s n))
  | .int n, .str s => .ok (.str (strRepeat s n))
  | .list l, .int n => .ok (.list (listRepeat l n))
  | .int n, .list l => .ok (.list (listRepeat l n))
  | a, _ => .error (.typError ("can\x27t multiply sequence by non-int of type \x27" ++ a.pyType ++ "\x27"))

/-- Python a // b: floor division on ints (truncation toward negative
infinity); any other operand types raise a TypeError.  The callers test for a
zero divisor themselves before calling this. -/
def pyFloorDiv : Value → Value → Except PyError Value
  | .int a, .int b => .ok (.int (Int.fdiv a b))
  | a, b => .error (.typError ("unsupported operand type(s) for //: \x27" ++ a.pyType ++ "\x27 and \x27" ++ b.pyType ++ "\x27"))

/-- Python b == 0 for a stack value: only the int zero compares equal. -/
def pyEqZero : Value → Bool
  | .int n => n = 0
  | _ => false

/-- Python abs(v): absolute value of an int, TypeError otherwise. -/
def pyAbs : Value → Except PyError Value
  | .int n => .ok (.int (Int.ofNat n.natAbs))
  | v => .error (.typError ("bad operand type for abs(): \x27" ++ v.pyType ++ "\x27"))

/-- Whether a value is a Python str, as isinstance(v, str). -/
def Value.isStr : Value → Bool
  | .str _ => true
  | _ => false

/-- Whether a value is a Python int, as isinstance(v, int). -/
def Value.isInt : Value → Bool
  | .int _ => true
  | _ => false

/-- Python dict lookup d[k] / k in d for the string-keyed dicts used here. -/
def lookupAssoc (m : List (String × Value)) (k : String) : Option Value :=
  match m with
  | [] => none
  | (k', v) :: rest => if k' = k then some v else lookupAssoc rest k

/-- Python dict assignment d[k] = v: overwrite in place, else append. -/
def insertAssoc (m : List (String × Value)) (k : String) (v : Value) : List (String × Value) :=
  match m with
  | [] => [(k, v)]
  | (k', v') :: rest => if k' = k then (k, v) :: rest else (k', v') :: insertAssoc rest k v

/-- Parser state: the lexer, the one-token lookahead current_token, and the
constants symbol table. -/
structure PState where
  lex : LexState
  cur : Token
  constants : List (String × Value)
deriving Repr

/-- Parser.error: a SyntaxError at the current token position. -/
def perror (st : PState) (msg : String) : PyError :=
  .synError st.cur.line st.cur.col msg

/-- Parser.eat: check the current token kind and pull the next token. -/
def eat (st : PState) (tt : TokenType) : Except PyError PState :=
  if st.cur.type = tt then
    match getNextToken st.lex with
    | .ok r => .ok ⟨r.2, r.1, st.constants⟩
    | .error e => .error e
  else
    .error (perror st ("Expected " ++ tt.pyRepr ++ ", got " ++ st.cur.type.pyRepr))

/-- NAME handling inside parse_const_expression_body: a defined constant is
pushed, an unknown name is pushed as the bare string itself. -/
def bodyNameStep (consts : List (String × Value)) (name : String) (stack : List Value) : List Value :=
  match lookupAssoc consts name with
  | some v => v :: stack
  | none => .str name :: stack

/-- OPERATOR handling inside parse_const_expression_body.  The stack top is
the right operand; + concatenates the str() forms when either operand is a
string; / floors, rejecting a zero divisor.  pos is the line/column of
current_token at the time Parser.error would run (the token after the
operator, already consumed by eat). -/
def bodyOpStep (pos : Nat × Nat) (op : String) (stack : List Value) : Except PyError (List Value) :=
  match stack with
  | b :: a :: rest =>
    if op = "+" then
      if a.isStr || b.isStr then .ok (.str (pyStr a ++ pyStr b) :: rest)
      else
        match pyAdd a b with
        | .ok v => .ok (v :: rest)
        | .error e => .error e
    else if op = "-" then
      match pySub a b with
      | .ok v => .ok (v :: rest)
      | .error e => .error e
    else if op = "*" then
      match pyMul a b with
      | .ok v => .ok (v :: rest)
      | .error e => .error e
    else if op = "/" then
      if pyEqZero b then .error (.synError pos.1 pos.2 "Division by zero")
      else
        match pyFloorDiv a b with
        | .ok v => .ok (v :: rest)
        | .error e => .error e
    else .error (.synError pos.1 pos.2 ("Unknown operator: " ++ op))
  | _ => .error (.synError pos.1 pos.2 ("Not enough operands for operator " ++ op))

/-- FUNCTION handling inside parse_const_expression_body: abs of an int; a
non-int argument is rejected with Parser.error (a SyntaxError, unlike the
other evaluator). -/
def bodyFunStep (pos : Nat × Nat) (func : String) (stack : List Value) : Except PyError (List Value) :=
  if func = "abs" then
    match stack with
    | [] => .error (.synError pos.1 pos.2 ("Not enough arguments for function " ++ func))
    | arg :: rest =>
      match arg with
      | .int n => .ok (.int (Int.ofNat n.natAbs) :: rest)
      | _ => .error (.synError pos.1 pos.2 ("Function " ++ func ++ " expects numeric argument"))
  else .error (.synError pos.1 pos.2 ("Unknown function: " ++ func))

/-- NAME handling inside parse_const_expression: a defined constant is
pushed; otherwise int(name) is attempted and a ValueError becomes the fatal
Unknown constant error. -/
def exprNameStep (consts : List (String × Value)) (name : String) (stack : List Value)
    (pos : Nat × Nat) : Except PyError (List Value) :=
  match lookupAssoc consts name with
  | some v => .ok (v :: stack)
  | none =>
    match decToInt? name with
    | some n => .ok (.int n :: stack)
    | none => .error (.synError pos.1 pos.2 ("Unknown constant: " ++ name))

/-- OPERATOR handling inside parse_const_expression: plain Python +, -, *,
with floor division guarded against a zero divisor; there is no string
special case here. -/
def exprOpStep (pos : Nat × Nat) (op : String) (stack : List Value) : Except PyError (List Value) :=
  match stack with
  | b :: a :: rest =>
    if op = "+" then
      match pyAdd a b with
      | .ok v => .ok (v :: rest)
      | .error e => .error e
    else if op = "-" then
      match pySub a b with
      | .ok v => .ok (v :: rest)
      | .error e => .error e
    else if op = "*" then
      match pyMul a b with
      | .ok v => .ok (v :: rest)
      | .error e => .error e
    else if op = "/" then
      if pyEqZero b then .error (.synError pos.1 pos.2 "Division by zero")
      else
        match pyFloorDiv a b with
        | .ok v => .ok (v :: rest)
        | .error e => .error e
    else .error (.synError pos.1 pos.2 ("Unknown operator: " ++ op))
  | _ => .error (.synError pos.1 pos.2 ("Not enough operands for operator " ++ op))

/-- FUNCTION handling inside parse_const_expression: abs is applied with no
type guard, so a string or list argument raises a TypeError. -/
def exprFunStep (pos : Nat × Nat) (func : String) (stack : List Value) : Except PyError (List Value) :=
  if func = "abs" then
    match stack with
    | [] => .error (.synError pos.1 pos.2 ("Not enough arguments for function " ++ func))
    | arg :: rest =>
      match pyAbs arg with
      | .ok v => .ok (v :: rest)
      | .error e => .error e
  else .error (.synError pos.1 pos.2 ("Unknown function: " ++ func))

/-- Parser.parse_const_expression_body: the loop runs until the closing
marker or end of input, then requires exactly one stack entry. -/
def parseConstExprBody : Nat → PState → List Value → Except PyError (Value × PState)
  | 0, _, _ => .error .outOfFuel
  | fuel + 1, st, stack =>
    if st.cur.type = .CONST_EXPR_END ∨ st.cur.type = .EOF then
      match stack with
      | [v] => .ok (v, st)
      | _ => .error (perror st "Invalid constant expression")
    else
      let tok := st.cur
      match tok.type with
      | .NUMBER =>
        match eat st .NUMBER with
        | .error e => .error e
        | .ok st' =>
          match decToInt? tok.value with
          | some n => parseConstExprBody fuel st' (.int n :: stack)
          | none => .error (.valError ("invalid literal for int() with base 10: \x27" ++ tok.value ++ "\x27"))
      | .HEX_NUMBER =>
        match eat st .HEX_NUMBER with
        | .error e => .error e
        | .ok st' =>
          match hexToInt? tok.value with
          | some n => parseConstExprBody fuel st' (.int n :: stack)
          | none => .error (.valError ("invalid literal for int() with base 16: \x27" ++ tok.value ++ "\x27"))
      | .NAME =>
        match eat st .NAME with
        | .error e => .error e
        | .ok st' => parseConstExprBody fuel st' (bodyNameStep st'.constants tok.value stack)
      | .OPERATOR =>
        match eat st .OPERATOR with
        | .error e => .error e
        | .ok st' =>
          match bodyOpStep (st'.cur.line, st'.cur.col) tok.value stack with
          | .ok stack' => parseConstExprBody fuel st' stack'
          | .error e => .error e
      | .FUNCTION =>
        match eat st .FUNCTION with
        | .error e => .error e
        | .ok st' =>
          match bodyFunStep (st'.cur.line, st'.cur.col) tok.value stack with
          | .ok stack' => parseConstExprBody fuel st' stack'
          | .error e => .error e
      | _ => .error (perror st ("Unexpected token in constant expression: " ++ tok.type.pyRepr))

/-- Loop of Parser.parse_const_expression, run until the closing marker. -/
def parseConstExprLoop : Nat → PState → List Value → Except PyError (List Value × PState)
  | 0, _, _ => .error .outOfFuel
  | fuel + 1, st, stack =>
    if st.cur.type = .CONST_EXPR_END then .ok (stack, st)
    else
      let tok := st.cur
      match tok.type with
      | .NUMBER =>
        match eat st .NUMBER with
        | .error e => .error e
        | .ok st' =>
          match decToInt? tok.value with
          | some n => parseConstExprLoop fuel st' (.int n :: stack)
          | none => .error (.valError ("invalid literal for int() with base 10: \x27" ++ tok.value ++ "\x27"))
      | .HEX_NUMBER =>
        match eat st .HEX_NUMBER with
        | .error e => .error e
        | .ok st' =>
          match hexToInt? tok.value with
          | some n => parseConstExprLoop fuel st' (.int n :: stack)
          | none => .error (.valError ("invalid literal for int() with base 16: \x27" ++ tok.value ++ "\x27"))
      | .NAME =>
        match eat st .NAME with
        | .error e => .error e
        | .ok st' =>
          match exprNameStep st'.constants tok.value stack (st'.cur.line, st'.cur.col) with
          | .ok stack' => parseConstExprLoop fuel st' stack'
          | .error e => .error e
      | .OPERATOR =>
        match eat st .OPERATOR with
        | .error e => .error e
        | .ok st' =>
          match exprOpStep (st'.cur.line, st'.cur.col) tok.value stack with
          | .ok stack' => parseConstExprLoop fuel st' stack'
          | .error e => .error e
      | .FUNCTION =>
        match eat st .FUNCTION with
        | .error e => .error e
        | .ok st' =>
          match exprFunStep (st'.cur.line, st'.cur.col) tok.value stack with
          | .ok stack' => parseConstExprLoop fuel st' stack'
          | .error e => .error e
      | _ => .error (perror st ("Unexpected token in constant expression: " ++ tok.type.pyRepr))

/-- Parser.parse_const_expression: consume the opening marker, seed the stack
from the optional leading name (a defined constant, else int(name), else a
fatal error), run the loop, consume the closing marker, and require exactly
one stack entry. -/
def parseConstExpr (fuel : Nat) (firstArg : Option String) (st : PState) : Except PyError (Value × PState) :=
  match eat st .CONST_EXPR_START with
  | .error e => .error e
  | .ok st =>
    let seeded : Except PyError (List Value) :=
      match firstArg with
      | some fa =>
        match lookupAssoc st.constants fa with
        | some v => .ok [v]
        | none =>
          match decToInt? fa with
          | some n => .ok [.int n]
          | none => .error (perror st ("Invalid constant expression argument: " ++ fa))
      | none => .ok []
    match seeded with
    | .error e => .error e
    | .ok stack0 =>
      match parseConstExprLoop fuel st stack0 with
      | .error e => .error e
      | .ok (stack, st) =>
        match eat st .CONST_EXPR_END with
        | .error e => .error e
        | .ok st =>
          match stack with
          | [v] => .ok (v, st)
          | _ => .error (perror st "Invalid constant expression")

/-- Modes of parseVal: Parser.parse_value, Parser.parse_array, and the
comma-separated element loop inside parse_array.  The three Python methods
are mutually recursive; they are merged into one fueled function so that the
recursion stays structural (on the fuel). -/
inductive PMode where
  | value
  | array
  | arrayLoop (acc : List Value)

/-- Parser.parse_value / Parser.parse_array (selected by the mode). -/
def parseVal : Nat → PMode → PState → Except PyError (Value × PState)
  | 0, _, _ => .error .outOfFuel
  | fuel + 1, .value, st =>
    let tok := st.cur
    match tok.type with
    | .NUMBER =>
      match eat st .NUMBER with
      | .error e => .error e
      | .ok st' =>
        match decToInt? tok.value with
        | some n => .ok (.int n, st')
        | none => .error (.valError ("invalid literal for int() with base 10: \x27" ++ tok.value ++ "\x27"))
    | .HEX_NUMBER =>
      match eat st .HEX_NUMBER with
      | .error e => .error e
      | .ok st' =>
        match hexToInt? tok.value with
        | some n => .ok (.int n, st')
        | none => .error (.valError ("invalid literal for int() with base 16: \x27" ++ tok.value ++ "\x27"))
    | .STRING =>
      match eat st .STRING with
      | .error e => .error e
      | .ok st' => .ok (.str tok.value, st')
    | .ARRAY_START => parseVal fuel .array st
    | .NAME =>
      match eat st .NAME with
      | .error e => .error e
      | .ok st' =>
        if st'.cur.type = .CONST_EXPR_START then
          parseConstExpr fuel (some tok.value) st'
        else
          match lookupAssoc st'.constants tok.value with
          | some v => .ok (v, st')
          | none => .ok (.str tok.value, st')
    | .CONST_EXPR_START =>
      match eat st .CONST_EXPR_START with
      | .error e => .error e
      | .ok st' =>
        match parseConstExprBody fuel st' [] with
        | .error e => .error e
        | .ok (v, st') =>
          match eat st' .CONST_EXPR_END with
          | .error e => .error e
          | .ok st' => .ok (v, st')
    | _ => .error (perror st ("Unexpected token in value: " ++ tok.type.pyRepr))
  | fuel + 1, .array, st =>
    match eat st .ARRAY_START with
    | .error e => .error e
    | .ok st =>
      if st.cur.type ≠ .ARRAY_END then
        match parseVal fuel .value st with
        | .error e => .error e
        | .ok (v, st) =>
          match parseVal fuel (.arrayLoop [v]) st with
          | .error e => .error e
          | .ok (vs, st) =>
            match eat st .ARRAY_END with
            | .error e => .error e
            | .ok st => .ok (vs, st)
      else
        match eat st .ARRAY_END with
        | .error e => .error e
        | .ok st => .ok (.list [], st)
  | fuel + 1, .arrayLoop acc, st =>
    if st.cur.type = .COMMA then
      match eat st .COMMA with
      | .error e => .error e
      | .ok st =>
        match parseVal fuel .value st with
        | .error e => .error e
        | .ok (v, st) => parseVal fuel (.arrayLoop (acc ++ [v])) st
    else .ok (.list acc, st)

/-- Parser.parse_define: the define keyword, then a NAME, then one value,
stored into the constants table. -/
def parseDefine (fuel : Nat) (st : PState) : Except PyError PState :=
  match eat st .DEFINE with
  | .error e => .error e
  | .ok st =>
    if st.cur.type ≠ .NAME then .error (perror st "Expected name after define")
    else
      let name := st.cur.value
      match eat st .NAME with
      | .error e => .error e
      | .ok st =>
        match parseVal fuel .value st with
        | .error e => .error e
        | .ok (v, st) => .ok ⟨st.lex, st.cur, insertAssoc st.constants name v⟩

/-- Parser.parse_config: the top-level loop over defines and key/value
pairs, accumulating the output dict. -/
def parseConfigLoop : Nat → PState → Config → Except PyError Config
  | 0, _, _ => .error .outOfFuel
  | fuel + 1, st, config =>
    if st.cur.type = .EOF then .ok config
    else
      match st.cur.type with
      | .DEFINE =>
        match parseDefine fuel st with
        | .error e => .error e
        | .ok st => parseConfigLoop fuel st config
      | .NAME =>
        let key := st.cur.value
        match eat st .NAME with
        | .error e => .error e
        | .ok st =>
          let pv :=
            if st.cur.type = .CONST_EXPR_START then parseConstExpr fuel none st
            else parseVal fuel .value st
          match pv with
          | .error e => .error e
          | .ok (v, st) => parseConfigLoop fuel st (insertAssoc config key v)
      | _ => .error (perror st ("Unexpected token: " ++ st.cur.type.pyRepr))

/-- Ample fuel for a complete run over an input of the given size. -/
def fuelFor (s : String) : Nat := s.length * 4 + 64

/-- convert_to_json: build the lexer and parser over the input text and run
parse_config, propagating the first error. -/
def convertToJson (s : String) : Except PyError Config :=
  match getNextToken (initLexer s) with
  | .error e => .error e
  | .ok (tok, lex) => parseConfigLoop (fuelFor s) ⟨lex, tok, []⟩ []

/-- Message of a SyntaxError result, none for success or other error kinds. -/
def errMsg? {α : Type} : Except PyError α → Option String
  | .error (.synError _ _ m) => some m
  | _ => none

/-- Whether a run failed with the SyntaxError kind (the one that carries a
position). -/
def isSynErrorB {α : Type} : Except PyError α → Bool
  | .error (.synError _ _ _) => true
  | _ => false

/-- Whether the character list contains the closing marker of a multi-line
comment, the sequence hash and greater-than, at any position. -/
def hasHashGt : List Char → Bool
  | [] => false
  | ch :: rest => (ch = '#' && rest.head? = some '>') || hasHashGt rest

/-- Whether the character list contains a double-quote character. -/
def hasQuote : List Char → Bool
  | [] => false
  | ch :: rest => ch = '\x22' || hasQuote rest

/-- Helper: an alphabetic character is never a decimal digit, so int(name)
always fails on a lexer NAME, whose first character is a lowercase letter. -/
theorem isAlpha_isDigit_false (c : Char) (h : c.isAlpha = true) : c.isDigit = false := by
  unfold Char.isAlpha Char.isUpper Char.isLower at h
  unfold Char.isDigit
  simp only [Bool.or_eq_true, Bool.and_eq_true, decide_eq_true_eq] at h
  simp only [Bool.and_eq_false_iff, decide_eq_false_iff_not]
  rcases h with ⟨h1, _⟩ | ⟨h1, _⟩
  · right
    intro hbad
    have h1' : (65 : Nat) ≤ c.val.toNat := h1
    have hbad' : c.val.toNat ≤ 57 := hbad
    omega
  · right
    intro hbad
    have h1' : (97 : Nat) ≤ c.val.toNat := h1
    have hbad' : c.val.toNat ≤ 57 := hbad
    omega

/-- Claim C1 (code behavior at the failing input): the documented input
fails.  The lexer has no rule for the closing parenthesis of a define, so
the input of C1 dies with a lexer error at the parenthesis (line 1 column
23) instead of producing port = 8080 as the spec and the repository tests
expect. -/
theorem c1_define_close_paren_is_lexer_error :
    convertToJson "(define base_port 8000)\nport .\x7bbase_port 80 +\x7d." =
      .error (.synError 1 23 "Unexpected character: )") := rfl

/-- Claim C2 counterexample: in a top-level constant-expression region a
string operand of + does not concatenate; the run fails with a TypeError
(and in particular does not succeed with k = "x1" as the claim requires).
The constant s is defined without a closing parenthesis, which is the only
way a define can survive the lexer. -/
theorem c2_counterexample :
    convertToJson "(define s @\x22x\x22\nk .\x7bs 1 +\x7d." =
      .error (.typError "can only concatenate str (not \x22int\x22) to str") ∧
    (convertToJson "(define s @\x22x\x22\nk .\x7bs 1 +\x7d.").isOk = false :=
  ⟨rfl, rfl⟩

/-- Claim C2 as amended: the string-concatenation special case of + exists
only in the evaluator used for regions nested inside values
(parse_const_expression_body), where + with any string operand pushes
str(a) + str(b) and no other operator has such a case (- and / on a string
raise a TypeError).  In the evaluator used for top-level and seeded regions
(parse_const_expression) + is plain Python addition, so a string/number mix
raises a TypeError instead of concatenating. -/
theorem c2_plus_string_concat_region_dependent :
    (∀ (pos : Nat × Nat) (a b : Value) (rest : List Value),
      (a.isStr || b.isStr) = true →
        bodyOpStep pos "+" (b :: a :: rest) = .ok (.str (pyStr a ++ pyStr b) :: rest)) ∧
    (∀ (pos : Nat × Nat) (s : String) (n : Int) (rest : List Value),
      exprOpStep pos "+" (.int n :: .str s :: rest) =
        .error (.typError "can only concatenate str (not \x22int\x22) to str")) ∧
    (∀ (pos : Nat × Nat) (s : String) (n : Int) (rest : List Value),
      exprOpStep pos "+" (.str s :: .int n :: rest) =
        .error (.typError "unsupported operand type(s) for +: \x27int\x27 and \x27str\x27")) ∧
    (∀ (pos : Nat × Nat) (s : String) (n : Int) (rest : List Value),
      bodyOpStep pos "-" (.int n :: .str s :: rest) =
        .error (.typError "unsupported operand type(s) for -: \x27str\x27 and \x27int\x27")) ∧
    (∀ (pos : Nat × Nat) (s1 s2 : String) (rest : List Value),
      bodyOpStep pos "/" (.str s2 :: .str s1 :: rest) =
        .error (.typError "unsupported operand type(s) for //: \x27str\x27 and \x27str\x27")) := by
  refine ⟨?_, ?_, ?_, ?_, ?_⟩
  · intro pos a b rest h
    simp [bodyOpStep, h]
  · intro pos s n rest
    simp [exprOpStep, pyAdd, Value.pyType]
  · intro pos s n rest
    simp [exprOpStep, pyAdd, Value.pyType]
  · intro pos s n rest
    simp [bodyOpStep, pySub, Value.pyType]
  · intro pos s1 s2 rest
    simp [bodyOpStep, pyEqZero, pyFloorDiv, Value.pyType]

/-- Witness for the amended C2 at concrete operands: in a nested region the
stack str "x" below int 2 under + concatenates to "x2". -/
theorem c2_plus_string_concat_region_dependent_witness :
    bodyOpStep (1, 1) "+" [Value.int 2, Value.str "x"] = .ok [Value.str "x2"] :=
  c2_plus_string_concat_region_dependent.1 (1, 1) (Value.str "x") (Value.int 2) [] rfl

/-- Claim C3 counterexample: in a constant-expression region nested inside a
value (here an array element) an unknown bare name x is pushed onto the
stack as the string "x" and the run succeeds, contradicting the claim that
such a name always aborts with an unknown-constant error.  For contrast, the
same region at top level after a key does abort. -/
theorem c3_counterexample :
    convertToJson "k [ .\x7bx\x7d. ]" = .ok [("k", .list [.str "x"])] ∧
    convertToJson "k .\x7bx\x7d." = .error (.synError 1 6 "Unknown constant: x") := by
  exact ⟨rfl, rfl⟩

/-- Claim C3 as amended: in regions evaluated by parse_const_expression
(top level after a key, or seeded) a bare name resolves to its symbol-table
value when defined; otherwise int(name) is attempted, which never succeeds
because lexer names begin with a letter, so an undefined name aborts with
the Unknown constant error.  In regions nested inside values
(parse_const_expression_body) an undefined name is instead pushed as the
name string itself, with no error. -/
theorem c3_name_resolution_by_region :
    (∀ (consts : List (String × Value)) (name : String) (stack : List Value)
        (pos : Nat × Nat) (v : Value),
      lookupAssoc consts name = some v →
        exprNameStep consts name stack pos = .ok (v :: stack)) ∧
    (∀ (consts : List (String × Value)) (name : String) (stack : List Value)
        (pos : Nat × Nat),
      lookupAssoc consts name = none → decToInt? name = none →
        exprNameStep consts name stack pos =
          .error (.synError pos.1 pos.2 ("Unknown constant: " ++ name))) ∧
    (∀ (ch : Char) (cs : List Char),
      ch.isAlpha = true → decToInt? (String.mk (ch :: cs)) = none) ∧
    (∀ (consts : List (String × Value)) (name : String) (stack : List Value),
      lookupAssoc consts name = none →
        bodyNameStep consts name stack = .str name :: stack) := by
  refine ⟨?_, ?_, ?_, ?_⟩
  · intro consts name stack pos v h
    simp [exprNameStep, h]
  · intro consts name stack pos h1 h2
    simp [exprNameStep, h1, h2]
  · intro ch cs h
    have hd : ch.isDigit = false := isAlpha_isDigit_false ch h
    have hm : ch ≠ '-' := by
      intro hc; subst hc; simp [Char.isAlpha, Char.isUpper, Char.isLower] at h
    have hp : ch ≠ '+' := by
      intro hc; subst hc; simp [Char.isAlpha, Char.isUpper, Char.isLower] at h
    show decToInt? (String.mk (ch :: cs)) = none
    unfold decToInt?
    have htl : (String.mk (ch :: cs)).toList = ch :: cs := rfl
    rw [htl]
    split
    · rename_i rest heq
      injection heq with e1 e2
      exact absurd e1 hm
    · rename_i rest heq
      injection heq with e1 e2
      exact absurd e1 hp
    · simp [digitsToNat?, hd]
  · intro consts name stack h
    simp [bodyNameStep, h]

/-- Witness for the amended C3 at concrete inputs: with an empty symbol
table, the top-level evaluator rejects the name x while the nested-value
evaluator pushes it as a string. -/
theorem c3_name_resolution_by_region_witness :
    exprNameStep [] "x" [] (1, 6) = .error (.synError 1 6 "Unknown constant: x") ∧
    bodyNameStep [] "x" [] = [Value.str "x"] ∧
    decToInt? (String.mk ['x']) = none :=
  ⟨c3_name_resolution_by_region.2.1 [] "x" [] (1, 6) rfl rfl,
   c3_name_resolution_by_region.2.2.2 [] "x" [] rfl,
   c3_name_resolution_by_region.2.2.1 'x' [] (by decide)⟩

/-- Claim C4 counterexample: the input a 0x fails, but with a ValueError
from int(0x, 16) that carries no line/column, not the single positioned
parse-error kind the claim requires for every failing input. -/
theorem c4_counterexample :
    convertToJson "a 0x" =
      .error (.valError "invalid literal for int() with base 16: \x270x\x27") ∧
    isSynErrorB (convertToJson "a 0x") = false :=
  ⟨rfl, rfl⟩

/-- Claim C4 as amended: errors raised by the lexer and by the parser's own
error routine are a single SyntaxError kind carrying a message plus the
line/column of the offending token, but the core can also fail with
position-free exceptions: int() on a digit-less hex literal raises a
ValueError, abs on a string constant in a top-level expression region
raises a TypeError, and a lone 0 at end of input raises a TypeError from
the unguarded peek membership test. -/
theorem c4_error_surface :
    convertToJson "a 0x" =
      .error (.valError "invalid literal for int() with base 16: \x270x\x27") ∧
    convertToJson "(define s @\x22x\x22\nk .\x7bs abs\x7d." =
      .error (.typError "bad operand type for abs(): \x27str\x27") ∧
    convertToJson "a 0" =
      .error (.typError "\x27in <string>\x27 requires string as left operand, not NoneType") ∧
    convertToJson "a $" = .error (.synError 1 3 "Unexpected character: $") ∧
    convertToJson "k [ 1, 2" =
      .error (.synError 1 9 "Expected TokenType.ARRAY_END, got TokenType.EOF") :=
  ⟨rfl, rfl, rfl, rfl, rfl⟩

/-- Claim C5: division in a constant-expression region with integer
operands rejects a zero divisor with the fatal Division by zero error and
otherwise pushes the floor of a/b (truncation toward negative infinity:
(-7)/2 gives -4), in both evaluators; with a concrete end-to-end run. -/
theorem c5_division_floor_and_zero_check :
    (∀ (pos : Nat × Nat) (a b : Int) (rest : List Value),
      bodyOpStep pos "/" (.int b :: .int a :: rest) =
        if b = 0 then .error (.synError pos.1 pos.2 "Division by zero")
        else .ok (.int (Int.fdiv a b) :: rest)) ∧
    (∀ (pos : Nat × Nat) (a b : Int) (rest : List Value),
      exprOpStep pos "/" (.int b :: .int a :: rest) =
        if b = 0 then .error (.synError pos.1 pos.2 "Division by zero")
        else .ok (.int (Int.fdiv a b) :: rest)) ∧
    Int.fdiv (-7) 2 = -4 ∧
    convertToJson "q .\x7b0 7 - 2 /\x7d." = .ok [("q", .int (-4))] ∧
    convertToJson "q .\x7b1 0 /\x7d." = .error (.synError 1 10 "Division by zero") := by
  refine ⟨?_, ?_, by decide, rfl, rfl⟩
  · intro pos a b rest
    by_cases hb : b = 0 <;> simp [bodyOpStep, pyEqZero, pyFloorDiv, hb]
  · intro pos a b rest
    by_cases hb : b = 0 <;> simp [exprOpStep, pyEqZero, pyFloorDiv, hb]

/-- Claim C6: a bare name in value position that is not followed by a
constant-expression start and is not a defined constant parses successfully
to the name itself as a string; with a concrete end-to-end run. -/
theorem c6_bare_name_string_fallback :
    (∀ (fuel : Nat) (st : PState) (tok : Token) (lex' : LexState),
      st.cur.type = .NAME →
      getNextToken st.lex = .ok (tok, lex') →
      tok.type ≠ .CONST_EXPR_START →
      lookupAssoc st.constants st.cur.value = none →
      parseVal (fuel + 1) .value st = .ok (.str st.cur.value, ⟨lex', tok, st.constants⟩)) ∧
    convertToJson "application app_name" = .ok [("application", .str "app_name")] := by
  refine ⟨?_, rfl⟩
  intro fuel st tok lex' h1 h2 h3 h4
  obtain ⟨lex0, ⟨ty, v, ln, cl⟩, consts⟩ := st
  simp only at h1 h2 h4 ⊢
  subst h1
  simp [parseVal, eat, h2, h3, h4]

/-- Witness for C6 at a concrete state: the name x with an exhausted lexer
and empty symbol table parses to the string "x". -/
theorem c6_bare_name_string_fallback_witness :
    parseVal 1 .value ⟨⟨[], 1, 4⟩, ⟨.NAME, "x", 1, 1⟩, []⟩ =
      .ok (.str "x", ⟨⟨[], 1, 4⟩, ⟨.EOF, "", 1, 4⟩, []⟩) :=
  c6_bare_name_string_fallback.1 0 ⟨⟨[], 1, 4⟩, ⟨.NAME, "x", 1, 1⟩, []⟩
    ⟨.EOF, "", 1, 4⟩ ⟨[], 1, 4⟩ rfl rfl (by decide) rfl

/-- Claim C7: the key/value pair with value region 5 10 - abs evaluates - as
5 - 10 = -5 (stack top is the right operand) and abs replaces it with its
magnitude, so the parsed value is the integer 5. -/
theorem c7_abs_magnitude :
    convertToJson "negative_value .\x7b5 10 - abs\x7d." =
      .ok [("negative_value", .int 5)] := rfl

/-- Helper for C8: the multi-line-comment loop of the lexer fails with the
Unclosed multi-line comment error whenever the closing marker never occurs
in the remaining text. -/
theorem c8aux_multi : ∀ (rest : List Char) (l c : Nat), hasHashGt rest = false →
    errMsg? (skipIgnorableGo rest l c .multi) = some "Unclosed multi-line comment" := by
  intro rest
  induction rest with
  | nil => intro l c _; rfl
  | cons ch rest ih =>
    intro l c h
    simp only [hasHashGt, Bool.or_eq_false_iff, Bool.and_eq_false_iff,
      decide_eq_false_iff_not] at h
    obtain ⟨h1, h2⟩ := h
    by_cases hch : ch = '#'
    · subst hch
      rcases rest with _ | ⟨c2, r2⟩
      · rfl
      · have hc2 : ¬ c2 = '>' := by
          rcases h1 with h1 | h1
          · exact absurd rfl h1
          · simpa using h1
        simp [skipIgnorableGo, hc2]
        exact ih l (c + 1) h2
    · by_cases hn : ch = '\n'
      · subst hn
        simp [skipIgnorableGo]
        exact ih (l + 1) 1 h2
      · simp [skipIgnorableGo, hch, hn]
        exact ih l (c + 1) h2

/-- Helper for C8: the string-literal loop of the lexer fails with the
Unclosed string error whenever no quote occurs in the remaining text. -/
theorem c8aux_string : ∀ (rest : List Char) (l c : Nat) (acc : String), hasQuote rest = false →
    errMsg? (readStringGo rest l c acc) = some "Unclosed string" := by
  intro rest
  induction rest with
  | nil => intro l c acc _; rfl
  | cons ch rest ih =>
    intro l c acc h
    simp only [hasQuote, Bool.or_eq_false_iff, decide_eq_false_iff_not] at h
    obtain ⟨h1, h2⟩ := h
    by_cases hn : ch = '\n'
    · subst hn
      simp [readStringGo]
      exact ih (l + 1) 1 (acc.push '\n') h2
    · simp [readStringGo, h1, hn]
      exact ih l (c + 1) (acc.push ch) h2

/-- Claim C8: input ending inside an unclosed multi-line comment or an
unclosed string literal fails in the lexer (universally: whenever the
closing marker never occurs in the remaining text), and an array whose
closing bracket is missing fails in the parser; concrete end-to-end runs
confirm each case, so no partial Config is ever returned for them. -/
theorem c8_truncated_inputs_fatal :
    (∀ (rest : List Char) (l c : Nat), hasHashGt rest = false →
      errMsg? (skipIgnorableGo rest l c .multi) = some "Unclosed multi-line comment") ∧
    (∀ (rest : List Char) (l c : Nat) (acc : String), hasQuote rest = false →
      errMsg? (readStringGo rest l c acc) = some "Unclosed string") ∧
    (∀ st : PState, st.cur.type = .EOF →
      eat st .ARRAY_END =
        .error (.synError st.cur.line st.cur.col
          "Expected TokenType.ARRAY_END, got TokenType.EOF")) ∧
    convertToJson "k <# x" = .error (.synError 1 7 "Unclosed multi-line comment") ∧
    convertToJson "k @\x22abc" = .error (.synError 1 8 "Unclosed string") ∧
    convertToJson "k [ 1, 2" =
      .error (.synError 1 9 "Expected TokenType.ARRAY_END, got TokenType.EOF") := by
  refine ⟨c8aux_multi, c8aux_string, ?_, rfl, rfl, rfl⟩
  intro st h
  obtain ⟨lex0, ⟨ty, v, ln, cl⟩, consts⟩ := st
  simp only at h ⊢
  subst h
  simp [eat, perror]
  rfl

/-- Witness for C8 at concrete lexer and parser states. -/
theorem c8_truncated_inputs_fatal_witness :
    errMsg? (skipIgnorableGo ['x'] 2 5 .multi) = some "Unclosed multi-line comment" ∧
    errMsg? (readStringGo ['a', 'b'] 1 3 "") = some "Unclosed string" ∧
    eat ⟨⟨[], 1, 9⟩, ⟨.EOF, "", 1, 9⟩, []⟩ .ARRAY_END =
      .error (.synError 1 9 "Expected TokenType.ARRAY_END, got TokenType.EOF") :=
  ⟨c8_truncated_inputs_fatal.1 ['x'] 2 5 rfl,
   c8_truncated_inputs_fatal.2.1 ['a', 'b'] 1 3 "" rfl,
   c8_truncated_inputs_fatal.2.2.1 ⟨⟨[], 1, 9⟩, ⟨.EOF, "", 1, 9⟩, []⟩ rfl⟩

/-- Claim C9: the output dict has last-write-wins semantics: after an
insert, lookup of the inserted key yields the new value and every other key
is unchanged; a concrete run with a repeated key keeps the last value while
the other key is preserved. -/
theorem c9_last_write_wins :
    (∀ (cfg : Config) (k : String) (v : Value),
      lookupAssoc (insertAssoc cfg k v) k = some v) ∧
    (∀ (cfg : Config) (k k' : String) (v : Value), k' ≠ k →
      lookupAssoc (insertAssoc cfg k v) k' = lookupAssoc cfg k') ∧
    convertToJson "a 1 b 2 a 3" = .ok [("a", .int 3), ("b", .int 2)] := by
  refine ⟨?_, ?_, rfl⟩
  · intro cfg k v
    induction cfg with
    | nil => simp [insertAssoc, lookupAssoc]
    | cons hd tl ih =>
      by_cases hk : hd.1 = k
      · simp [insertAssoc, hk, lookupAssoc]
      · simp [insertAssoc, hk, lookupAssoc, ih]
  · intro cfg k k' v hne
    induction cfg with
    | nil =>
      simp [insertAssoc, lookupAssoc]
      exact fun h => hne h.symm
    | cons hd tl ih =>
      by_cases hk : hd.1 = k
      · subst hk
        have h2 : ¬ hd.1 = k' := fun h => hne h.symm
        simp [insertAssoc, lookupAssoc, h2]
      · simp [insertAssoc, hk, lookupAssoc, ih]

/-- Witness for C9 at concrete dicts. -/
theorem c9_last_write_wins_witness :
    lookupAssoc (insertAssoc [("a", Value.int 1)] "a" (Value.int 3)) "a" = some (Value.int 3) ∧
    lookupAssoc (insertAssoc [("b", Value.int 2)] "a" (Value.int 3)) "b" = some (Value.int 2) :=
  ⟨c9_last_write_wins.1 [("a", Value.int 1)] "a" (Value.int 3),
   c9_last_write_wins.2.1 [("b", Value.int 2)] "a" "b" (Value.int 3) (by decide)⟩

/-- Claim C10: the lexeme abs is always tokenized as the built-in FUNCTION
token (whenever the following character cannot extend the name), the
top-level loop rejects a FUNCTION token where a key is expected, and a
define whose next token is FUNCTION fails with Expected name after define;
concrete end-to-end runs confirm both error paths. -/
theorem c10_abs_reserved :
    (∀ (l c : Nat) (rest : List Char),
      (∀ ch, rest.head? = some ch → pyIsNameChar ch = false) →
      getNextToken ⟨'a' :: 'b' :: 's' :: rest, l, c⟩ =
        .ok (⟨.FUNCTION, "abs", l, c⟩, ⟨rest, l, c + 3⟩)) ∧
    (∀ (fuel : Nat) (st : PState) (cfg : Config),
      st.cur.type = .FUNCTION →
      parseConfigLoop (fuel + 1) st cfg =
        .error (.synError st.cur.line st.cur.col "Unexpected token: TokenType.FUNCTION")) ∧
    (∀ (fuel : Nat) (st : PState) (tok : Token) (lex' : LexState),
      st.cur.type = .DEFINE →
      getNextToken st.lex = .ok (tok, lex') →
      tok.type = .FUNCTION →
      parseDefine fuel st = .error (.synError tok.line tok.col "Expected name after define")) ∧
    convertToJson "abs 1" = .error (.synError 1 1 "Unexpected token: TokenType.FUNCTION") ∧
    convertToJson "(define abs 1" = .error (.synError 1 9 "Expected name after define") := by
  refine ⟨?_, ?_, ?_, rfl, rfl⟩
  · intro l c rest h
    rcases hr : rest with _ | ⟨ch, rest2⟩
    · rfl
    · have hch : pyIsNameChar ch = false := h ch (by rw [hr]; rfl)
      simp only [pyIsNameChar, Bool.or_eq_false_iff, decide_eq_false_iff_not] at hch
      obtain ⟨hna, hnu⟩ := hch
      simp [getNextToken, skipIgnorableGo, pyIsSpace, readNameGo, pyIsNameChar, hna, hnu]
      rfl
  · intro fuel st cfg h
    obtain ⟨lex0, ⟨ty, v, ln, cl⟩, consts⟩ := st
    simp only at h ⊢
    subst h
    simp [parseConfigLoop, perror]
    rfl
  · intro fuel st tok lex' h1 h2 h3
    obtain ⟨lex0, ⟨ty, v, ln, cl⟩, consts⟩ := st
    simp only at h1 h2 ⊢
    subst h1
    simp [parseDefine, eat, h2, h3, perror]

/-- Witness for C10 at concrete states: abs is lexed as FUNCTION, a
FUNCTION current token aborts the top-level loop, and a define whose name
slot holds abs aborts. -/
theorem c10_abs_reserved_witness :
    getNextToken ⟨['a', 'b', 's'], 1, 1⟩ = .ok (⟨.FUNCTION, "abs", 1, 1⟩, ⟨[], 1, 4⟩) ∧
    parseConfigLoop 1 ⟨⟨[], 1, 5⟩, ⟨.FUNCTION, "abs", 1, 1⟩, []⟩ [] =
      .error (.synError 1 1 "Unexpected token: TokenType.FUNCTION") ∧
    parseDefine 0 ⟨⟨['a', 'b', 's'], 1, 9⟩, ⟨.DEFINE, "define", 1, 1⟩, []⟩ =
      .error (.synError 1 9 "Expected name after define") :=
  ⟨c10_abs_reserved.1 1 1 [] (fun _ h => Option.noConfusion h),
   c10_abs_reserved.2.1 0 ⟨⟨[], 1, 5⟩, ⟨.FUNCTION, "abs", 1, 1⟩, []⟩ [] rfl,
   c10_abs_reserved.2.2.1 0 ⟨⟨['a', 'b', 's'], 1, 9⟩, ⟨.DEFINE, "define", 1, 1⟩, []⟩
     ⟨.FUNCTION, "abs", 1, 9⟩ ⟨[], 1, 12⟩ rfl rfl rfl⟩

end ConfigToJson
